import Mathlib

/-!
Verification of the PredictPix landing page (src/src/PredictPixLanding.jsx).

Times are JavaScript epoch timestamps in milliseconds, embedded as `Int`
(`Date.now()` and `new Date(iso).getTime()` are integral millisecond counts
for the inputs in scope). The countdown hook, the phase flag, the referral
parameter hook and the signup submit handler are embedded as pure functions;
the single awaited `fetch` is represented by passing its outcome
(`Except JsError Response`) to the handler, which models the async function
run to completion on that outcome.
-/

namespace PredictPix

/-- The record returned by `useCountdown` (line 52):
`{ diff, days, hours, minutes, seconds }`. `diff` is in milliseconds. -/
structure Countdown where
  diff : Int
  days : Nat
  hours : Nat
  minutes : Nat
  seconds : Nat
  deriving Repr, DecidableEq

/-- `useCountdown` (lines 40-53), at one observation of the clock:
`diff = Math.max(0, target - now)`;
`days = Math.floor(diff / (1000*60*60*24))`;
`hours = Math.floor((diff / (1000*60*60)) % 24)`;
`minutes = Math.floor((diff / (1000*60)) % 60)`;
`seconds = Math.floor((diff / 1000) % 60)`.
For non-negative `diff`, JavaScript `Math.floor((diff / k) % m)` equals
Nat floor division then remainder, `diff / k % m`. -/
def useCountdown (target now : Int) : Countdown :=
  let diff : Int := max 0 (target - now)
  let ms : Nat := diff.toNat
  { diff := diff
    days := ms / (1000 * 60 * 60 * 24)
    hours := ms / (1000 * 60 * 60) % 24
    minutes := ms / (1000 * 60) % 60
    seconds := ms / 1000 % 60 }

/-- `const preLaunch = diff > 0` (line 137). -/
def preLaunch (target now : Int) : Bool :=
  (useCountdown target now).diff > 0

/-- The two page variants: the component renders the pre-launch branch when
`preLaunch` is true and the post-launch branch otherwise (lines 239-276). -/
inductive PhaseState where
  | PRE_LAUNCH
  | POST_LAUNCH
  deriving Repr, DecidableEq

/-- The phase the page renders, a pure function of `preLaunch`. -/
def phase (target now : Int) : PhaseState :=
  if preLaunch target now then PhaseState.PRE_LAUNCH else PhaseState.POST_LAUNCH

/-- Pure arithmetic core of the countdown decomposition identity. -/
theorem countdown_decomp (d : Nat) :
    d / (1000 * 60 * 60 * 24) * 86400 + d / (1000 * 60 * 60) % 24 * 3600 +
      d / (1000 * 60) % 60 * 60 + d / 1000 % 60 = d / 1000 := by
  have e1 : d / (1000 * 60 * 60 * 24) = d / 1000 / 86400 := by
    rw [Nat.div_div_eq_div_mul]
  have e2 : d / (1000 * 60 * 60) = d / 1000 / 3600 := by
    rw [Nat.div_div_eq_div_mul]
  have e3 : d / (1000 * 60) = d / 1000 / 60 := by
    rw [Nat.div_div_eq_div_mul]
  rw [e1, e2, e3]
  omega

/-- C1: for every target instant `T` and current time `N` with `N < T` (both in
milliseconds), the decomposition computed by `useCountdown` satisfies
`days*86400 + hours*3600 + minutes*60 + seconds = floor((T - N) in seconds)`;
in particular at `N = T - 90061` seconds it yields
days = 1, hours = 1, minutes = 1, seconds = 1. -/
theorem useCountdown_decomposition (T N : Int) (h : N < T) :
    ((useCountdown T N).days * 86400 + (useCountdown T N).hours * 3600 +
        (useCountdown T N).minutes * 60 + (useCountdown T N).seconds
      = (T - N).toNat / 1000) ∧
    ((useCountdown T (T - 90061 * 1000)).days = 1 ∧
      (useCountdown T (T - 90061 * 1000)).hours = 1 ∧
      (useCountdown T (T - 90061 * 1000)).minutes = 1 ∧
      (useCountdown T (T - 90061 * 1000)).seconds = 1) := by
  constructor
  · have hmax : max 0 (T - N) = T - N := by omega
    simp only [useCountdown, hmax]
    exact countdown_decomp (T - N).toNat
  · have hd : T - (T - 90061 * 1000) = 90061000 := by ring
    simp only [useCountdown, hd]
    decide

/-- Witness for C1 at T = 90061000, N = 0. -/
theorem useCountdown_decomposition_witness :
    (0 : Int) < 90061000 ∧
    (((useCountdown 90061000 0).days * 86400 + (useCountdown 90061000 0).hours * 3600 +
        (useCountdown 90061000 0).minutes * 60 + (useCountdown 90061000 0).seconds
      = ((90061000 : Int) - 0).toNat / 1000) ∧
    ((useCountdown 90061000 (90061000 - 90061 * 1000)).days = 1 ∧
      (useCountdown 90061000 (90061000 - 90061 * 1000)).hours = 1 ∧
      (useCountdown 90061000 (90061000 - 90061 * 1000)).minutes = 1 ∧
      (useCountdown 90061000 (90061000 - 90061 * 1000)).seconds = 1)) :=
  ⟨by norm_num, useCountdown_decomposition 90061000 0 (by norm_num)⟩

/-- The page shows the post-launch branch exactly when the target has been
reached. -/
theorem phase_post_iff (T n : Int) :
    phase T n = PhaseState.POST_LAUNCH ↔ T ≤ n := by
  constructor
  · intro h
    by_contra hn
    push_neg at hn
    have hb : preLaunch T n = true := by
      simp only [preLaunch, useCountdown, decide_eq_true_eq]
      omega
    simp [phase, hb] at h
  · intro h
    have hb : preLaunch T n = false := by
      simp only [preLaunch, useCountdown, decide_eq_false_iff_not]
      omega
    simp [phase, hb]

/-- C4: for any monotonically advancing clock, once the phase is
POST_LAUNCH (remaining time reached 0) it stays POST_LAUNCH at every later
tick, so the PRE_LAUNCH to POST_LAUNCH transition happens at most once and
never reverses. -/
theorem phase_monotone (T : Int) (clock : Nat → Int)
    (mono : ∀ i j : Nat, i ≤ j → clock i ≤ clock j) (i j : Nat) (hij : i ≤ j)
    (h : phase T (clock i) = PhaseState.POST_LAUNCH) :
    phase T (clock j) = PhaseState.POST_LAUNCH := by
  have hc := mono i j hij
  rw [phase_post_iff] at h ⊢
  omega

/-- Witness for C4: constant clock at time 1 with target 0 is POST_LAUNCH at
ticks 0 and 1. -/
theorem phase_monotone_witness :
    (∀ i j : Nat, i ≤ j → (fun _ : Nat => (1 : Int)) i ≤ (fun _ : Nat => (1 : Int)) j) ∧
    (0 : Nat) ≤ 1 ∧
    phase 0 ((fun _ : Nat => (1 : Int)) 0) = PhaseState.POST_LAUNCH ∧
    phase 0 ((fun _ : Nat => (1 : Int)) 1) = PhaseState.POST_LAUNCH := by
  refine ⟨fun i j _ => le_refl 1, by norm_num, by decide, ?_⟩
  exact phase_monotone 0 (fun _ => 1) (fun i j _ => le_refl 1) 0 1 (by norm_num)
    (by decide)

/-- C5: for `N ≥ T` the remaining duration is 0 and every decomposed field is
0, at `N = T` (covered by `T ≤ N`) the phase is POST_LAUNCH, and for all
inputs the remaining duration `max(0, T - N)` is non-negative. -/
theorem useCountdown_after_target (T N : Int) (h : T ≤ N) :
    (useCountdown T N).diff = 0 ∧
    (useCountdown T N).days = 0 ∧ (useCountdown T N).hours = 0 ∧
    (useCountdown T N).minutes = 0 ∧ (useCountdown T N).seconds = 0 ∧
    phase T N = PhaseState.POST_LAUNCH ∧
    (∀ T' N' : Int, 0 ≤ (useCountdown T' N').diff) := by
  have hmax : max 0 (T - N) = 0 := by omega
  refine ⟨?_, ?_, ?_, ?_, ?_, ?_, ?_⟩
  · simp [useCountdown, hmax]
  · simp [useCountdown, hmax]
  · simp [useCountdown, hmax]
  · simp [useCountdown, hmax]
  · simp [useCountdown, hmax]
  · simp [phase, preLaunch, useCountdown, hmax]
  · intro T' N'
    simp only [useCountdown]
    exact le_max_left 0 (T' - N')

/-- Witness for C5 at T = N = 5. -/
theorem useCountdown_after_target_witness :
    (5 : Int) ≤ 5 ∧
    ((useCountdown 5 5).diff = 0 ∧
    (useCountdown 5 5).days = 0 ∧ (useCountdown 5 5).hours = 0 ∧
    (useCountdown 5 5).minutes = 0 ∧ (useCountdown 5 5).seconds = 0 ∧
    phase 5 5 = PhaseState.POST_LAUNCH ∧
    (∀ T' N' : Int, 0 ≤ (useCountdown T' N').diff)) :=
  ⟨le_refl 5, useCountdown_after_target 5 5 (le_refl 5)⟩

/-- The view state of the signup flow (lines 140-143):
`email`, `wallet`, `message` (null or a string), `loading`. -/
structure SignupState where
  email : String
  wallet : String
  message : Option String
  loading : Bool
  deriving Repr, DecidableEq

/-- The JSON body posted to `/api/subscribe` (line 153):
`{ email, wallet, ref }`. -/
structure SignupRequest where
  email : String
  wallet : String
  ref : String
  deriving Repr, DecidableEq

/-- A fetch response as the handler observes it: `res.ok`, `res.status`, and
the awaited `res.text()` body. -/
structure Response where
  ok : Bool
  status : Nat
  body : String
  deriving Repr, DecidableEq

/-- A thrown/rejected fetch error; `err?.message` may be absent. -/
structure JsError where
  message : Option String
  deriving Repr, DecidableEq

/-- The success message set on line 156. -/
def successMessage : String :=
  "You" ++ String.singleton (Char.ofNat 39) ++
    "re on the list! Check your email for confirmation."

/-- Line 161: `Signup failed: ` followed by `t || res.status` — an empty body
is falsy, so the numeric status is interpolated instead. -/
def rejectionMessage (body : String) (status : Nat) : String :=
  "Signup failed: " ++ (if body = "" then toString status else body)

/-- Line 164: `Network error: ` followed by `err?.message || "unknown"` — an
absent or empty error message is falsy. -/
def networkErrorMessage (m : Option String) : String :=
  "Network error: " ++
    (match m with
      | some s => if s = "" then "unknown" else s
      | none => "unknown")

/-- The synchronous prefix of `submit` (lines 145-154): `setLoading(true)`,
`setMessage(null)`, then the fetch is issued with body
`{ email, wallet, ref: refParam }`. Nothing here inspects `loading`. -/
def submitStart (st : SignupState) (refParam : String) :
    SignupState × SignupRequest :=
  ({ st with loading := true, message := none },
   { email := st.email, wallet := st.wallet, ref := refParam })

/-- The remainder of `submit` (lines 155-167) once the awaited fetch resolves
with `outcome`: the try/catch makes the handler total (a thrown transport
error is caught, never propagated), and the `finally` block resets
`loading`. -/
def submitFinish (st : SignupState) (outcome : Except JsError Response) :
    SignupState :=
  let st2 :=
    match outcome with
    | Except.ok res =>
        if res.ok then
          { st with message := some successMessage, email := "", wallet := "" }
        else
          { st with message := some (rejectionMessage res.body res.status) }
    | Except.error e =>
        { st with message := some (networkErrorMessage e.message) }
  { st2 with loading := false }

/-- One complete run of `submit` (lines 145-168) whose single awaited fetch
resolves with `outcome`: the final state together with the request that was
posted. -/
def submit (st : SignupState) (refParam : String)
    (outcome : Except JsError Response) : SignupState × SignupRequest :=
  let (st1, req) := submitStart st refParam
  (submitFinish st1 outcome, req)

/-- Modelled from the spec: the browser constraint validation attached to the
email input (lines 299-308, `type="email" required`) — the validation
implementation lives in the browser, not in this repository. Per the spec the
email must be non-empty and pass basic format validation; modelled as exactly
one `@` separating two non-empty parts. -/
def emailValid (e : String) : Bool :=
  match e.data.splitOn '@' with
  | [localPart, domainPart] => !localPart.isEmpty && !domainPart.isEmpty
  | _ => false

/-- The waitlist submit button (line 335) is a `GradientButton`, rendered as
a plain `<button>` (lines 96-99) with no `disabled` attribute: it is never
disabled, in particular not while `loading` is true (`loading` is written by
`submit` but read nowhere in the render). -/
def submitButtonDisabled (_st : SignupState) : Bool := false

/-- Modelled from the spec: the browser form-submission pipeline (the form on
line 295 wires `onSubmit` to `submit`) is browser code, not code of this
repository. One user click on the waitlist submit button: if the button is
not disabled and the form passes constraint validation (the email control and
the required consent checkbox), `onSubmit` fires and the synchronous part of
`submit` runs, issuing the fetch; otherwise nothing runs and no request is
sent. Returns the new state and the requests issued by this click. -/
def clickSubmit (st : SignupState) (consent : Bool) (refParam : String) :
    SignupState × List SignupRequest :=
  if submitButtonDisabled st then
    (st, [])
  else if emailValid st.email && consent then
    let (st', req) := submitStart st refParam
    (st', [req])
  else
    (st, [])

/-- `useRefParam` (lines 31-38): reads the `ref` query parameter of the page
address once at load; `searchParams.get` returning null (parameter absent) is
replaced by the empty string via `|| ""`, and an empty value is likewise
falsy. The browser `URL`/`searchParams` machinery is not code of this
repository; the query parameters are modelled as a key-value list and `get`
as the first matching value. -/
def useRefParam (searchParams : List (String × String)) : String :=
  match searchParams.lookup "ref" with
  | some v => if v = "" then "" else v
  | none => ""

/-- Line 355: `Referral detected:` renders `refParam || "none"`. -/
def refDisplay (ref : String) : String :=
  if ref = "" then "none" else ref

/-- C2: a submit trigger with an empty (or format-invalid) email issues no
network request and leaves the signup state unchanged — in particular a flow
in the IDLE state (`loading = false`) stays there. -/
theorem invalid_email_no_network_call (st : SignupState) (consent : Bool)
    (refParam : String) (h : st.email = "" ∨ emailValid st.email = false) :
    clickSubmit st consent refParam = (st, []) := by
  have hv : emailValid st.email = false := by
    rcases h with h | h
    · rw [h]; decide
    · exact h
  simp [clickSubmit, submitButtonDisabled, hv]

/-- Witness for C2: empty email, consent given, IDLE state. -/
theorem invalid_email_no_network_call_witness :
    ((SignupState.mk "" "" none false).email = "" ∨
      emailValid (SignupState.mk "" "" none false).email = false) ∧
    clickSubmit (SignupState.mk "" "" none false) true "ABC123" =
      (SignupState.mk "" "" none false, []) :=
  ⟨Or.inl rfl,
    invalid_email_no_network_call (SignupState.mk "" "" none false) true "ABC123"
      (Or.inl rfl)⟩

/-- C3 (exhibits the code defect): the `loading` flag is set by `submit` but
never read by the render, and the submit button carries no `disabled`
attribute, so a second click while a submission is outstanding issues a
second fetch. Starting from IDLE with a valid email, two rapid clicks issue
one request each — the second while `loading` is already true and the button
is still not disabled. -/
theorem rapid_clicks_issue_two_requests :
    (clickSubmit (SignupState.mk "a@b.co" "" none false) true "ABC123").1.loading
        = true ∧
    submitButtonDisabled
        (clickSubmit (SignupState.mk "a@b.co" "" none false) true "ABC123").1
      = false ∧
    (clickSubmit (SignupState.mk "a@b.co" "" none false) true "ABC123").2.length
      = 1 ∧
    (clickSubmit
        (clickSubmit (SignupState.mk "a@b.co" "" none false) true "ABC123").1
        true "ABC123").2.length = 1 :=
  ⟨rfl, rfl, rfl, rfl⟩

/-- C6: when the fetch resolves with an acceptance response (`res.ok`), the
email and wallet fields are cleared to the empty string and the success
message is displayed. -/
theorem submit_success_clears_fields (st : SignupState) (refParam : String)
    (res : Response) (h : res.ok = true) :
    (submit st refParam (Except.ok res)).1.email = "" ∧
    (submit st refParam (Except.ok res)).1.wallet = "" ∧
    (submit st refParam (Except.ok res)).1.message = some successMessage := by
  simp [submit, submitStart, submitFinish, h]

/-- Witness for C6: a 200 acceptance clears the entered fields. -/
theorem submit_success_clears_fields_witness :
    (Response.mk true 200 "").ok = true ∧
    ((submit (SignupState.mk "a@b.co" "wallet1" none false) "ABC123"
        (Except.ok (Response.mk true 200 ""))).1.email = "" ∧
     (submit (SignupState.mk "a@b.co" "wallet1" none false) "ABC123"
        (Except.ok (Response.mk true 200 ""))).1.wallet = "" ∧
     (submit (SignupState.mk "a@b.co" "wallet1" none false) "ABC123"
        (Except.ok (Response.mk true 200 ""))).1.message = some successMessage) :=
  ⟨rfl, submit_success_clears_fields (SignupState.mk "a@b.co" "wallet1" none false)
    "ABC123" (Response.mk true 200 "") rfl⟩

/-- C7: when the fetch resolves with a rejection response, the entered email
and wallet are preserved unchanged, and when the response body is non-empty
the displayed message contains it verbatim. -/
theorem submit_rejection_preserves_fields (st : SignupState) (refParam : String)
    (res : Response) (hok : res.ok = false) (hbody : res.body ≠ "") :
    (submit st refParam (Except.ok res)).1.email = st.email ∧
    (submit st refParam (Except.ok res)).1.wallet = st.wallet ∧
    ∃ pre post : String,
      (submit st refParam (Except.ok res)).1.message =
        some (pre ++ res.body ++ post) := by
  refine ⟨by simp [submit, submitStart, submitFinish, hok],
          by simp [submit, submitStart, submitFinish, hok],
          "Signup failed: ", "", ?_⟩
  simp [submit, submitStart, submitFinish, hok, rejectionMessage, hbody]

/-- Witness for C7: a rejection with body "duplicate email" preserves the
fields and the message contains "duplicate email". -/
theorem submit_rejection_preserves_fields_witness :
    (Response.mk false 409 "duplicate email").ok = false ∧
    (Response.mk false 409 "duplicate email").body ≠ "" ∧
    ((submit (SignupState.mk "a@b.co" "wallet1" none false) "ABC123"
        (Except.ok (Response.mk false 409 "duplicate email"))).1.email = "a@b.co" ∧
     (submit (SignupState.mk "a@b.co" "wallet1" none false) "ABC123"
        (Except.ok (Response.mk false 409 "duplicate email"))).1.wallet = "wallet1" ∧
     ∃ pre post : String,
       (submit (SignupState.mk "a@b.co" "wallet1" none false) "ABC123"
          (Except.ok (Response.mk false 409 "duplicate email"))).1.message =
         some (pre ++ "duplicate email" ++ post)) :=
  ⟨rfl, by decide,
    submit_rejection_preserves_fields (SignupState.mk "a@b.co" "wallet1" none false)
      "ABC123" (Response.mk false 409 "duplicate email") rfl (by decide)⟩

/-- Two strings with the distinct 15-character prefixes used by the handler
are never equal. -/
theorem prefix_distinguishes (a b : String) :
    ("Signup failed: " ++ a) ≠ ("Network error: " ++ b) := by
  intro h
  have hd : ("Signup failed: ").data ++ a.data =
      ("Network error: ").data ++ b.data := by
    have h2 := congrArg String.data h
    simp [String.data_append] at h2
  have hlen : ("Signup failed: ").data.length =
      ("Network error: ").data.length := by decide
  have := (List.append_inj hd hlen).1
  exact absurd this (by decide)

/-- C8: a transport error thrown by the fetch is caught — `submit` returns a
final state rather than propagating — the displayed message carries the
network-failure prefix, and it differs from the message produced by every
server-rejection outcome. -/
theorem submit_network_error_message (st : SignupState) (refParam : String)
    (e : JsError) :
    (∃ rest : String,
      (submit st refParam (Except.error e)).1.message =
        some ("Network error: " ++ rest)) ∧
    (∀ (st2 : SignupState) (ref2 : String) (res : Response), res.ok = false →
      (submit st2 ref2 (Except.ok res)).1.message ≠
        (submit st refParam (Except.error e)).1.message) := by
  constructor
  · exact ⟨(match e.message with
      | some s => if s = "" then "unknown" else s
      | none => "unknown"), rfl⟩
  · intro st2 ref2 res hok heq
    have h1 : (submit st2 ref2 (Except.ok res)).1.message =
        some (rejectionMessage res.body res.status) := by
      simp [submit, submitStart, submitFinish, hok]
    have h2 : (submit st refParam (Except.error e)).1.message =
        some (networkErrorMessage e.message) := rfl
    rw [h1, h2] at heq
    exact prefix_distinguishes _ _ (Option.some.inj heq)

/-- Witness for C8: a rejection message and a network-error message at
concrete inputs are distinct. -/
theorem submit_network_error_message_witness :
    (Response.mk false 409 "duplicate email").ok = false ∧
    (submit (SignupState.mk "a@b.co" "" none false) "ABC123"
        (Except.ok (Response.mk false 409 "duplicate email"))).1.message ≠
      (submit (SignupState.mk "a@b.co" "" none false) "ABC123"
        (Except.error (JsError.mk (some "timeout")))).1.message :=
  ⟨rfl,
    (submit_network_error_message (SignupState.mk "a@b.co" "" none false) "ABC123"
        (JsError.mk (some "timeout"))).2
      (SignupState.mk "a@b.co" "" none false) "ABC123"
      (Response.mk false 409 "duplicate email") rfl⟩

/-- C9: the referral token read by `useRefParam` is "ABC123" for a query
containing `ref=ABC123`, is the empty string when the parameter is absent
(then displayed as "none"), and every posted request carries the referral
token verbatim in its `ref` field. -/
theorem refParam_verbatim (params : List (String × String))
    (h : params.lookup "ref" = none) :
    useRefParam [("ref", "ABC123")] = "ABC123" ∧
    useRefParam params = "" ∧
    refDisplay (useRefParam params) = "none" ∧
    (∀ (st : SignupState) (r : String) (o : Except JsError Response),
      (submit st r o).2.ref = r) := by
  refine ⟨by decide, ?_, ?_, ?_⟩
  · simp [useRefParam, h]
  · simp [useRefParam, refDisplay, h]
  · intro st r o
    rfl

/-- Witness for C9 with an empty parameter list. -/
theorem refParam_verbatim_witness :
    (([] : List (String × String)).lookup "ref" = none) ∧
    (useRefParam [("ref", "ABC123")] = "ABC123" ∧
     useRefParam [] = "" ∧
     refDisplay (useRefParam []) = "none" ∧
     (∀ (st : SignupState) (r : String) (o : Except JsError Response),
       (submit st r o).2.ref = r)) :=
  ⟨rfl, refParam_verbatim [] rfl⟩

/-- C10: for every outcome of the awaited fetch — acceptance, rejection, or a
thrown transport error — `submit` terminates with `loading` reset to false
(the `finally` block), so the flow always leaves the SUBMITTING state. -/
theorem submit_always_resets_loading (st : SignupState) (refParam : String)
    (outcome : Except JsError Response) :
    (submit st refParam outcome).1.loading = false := by
  cases outcome with
  | ok res =>
      by_cases h : res.ok = true <;> simp [submit, submitStart, submitFinish, h]
  | error e => rfl

end PredictPix
